import Mathlib

/-!
Verification of the map-view bounds logic of the ca_dashboard repository.

The repository contains two versions of a `calculateBounds` function
(`src/unnamed/part_000` and `src/unnamed/part_001`) plus the Dashboard
component that filters a GeoJSON feature collection by a truthy
`last_edited` property before computing the map view.  We give a shallow
embedding: JavaScript numbers are modelled as rationals extended with
NaN and the two infinities (`JNum`), arbitrary JavaScript scalar values
appearing in coordinate positions as `JVal`, and the fallible return
(`null`) as `Option`.
-/

namespace CaDashboard

/-- JavaScript number: a finite value (idealised as a rational), one of the
two infinities, or NaN. -/
inductive JNum where
  | nan : JNum
  | inf : JNum
  | ninf : JNum
  | fin : ℚ → JNum
deriving DecidableEq, Repr

namespace JNum

/-- JavaScript `Math.min` on two numbers: NaN if either operand is NaN,
otherwise the usual minimum with -Infinity below every finite value and
Infinity above every finite value. -/
def jmin : JNum → JNum → JNum
  | nan, _ => nan
  | _, nan => nan
  | ninf, _ => ninf
  | _, ninf => ninf
  | inf, b => b
  | a, inf => a
  | fin p, fin q => fin (min p q)

/-- JavaScript `Math.max` on two numbers. -/
def jmax : JNum → JNum → JNum
  | nan, _ => nan
  | _, nan => nan
  | inf, _ => inf
  | _, inf => inf
  | ninf, b => b
  | a, ninf => a
  | fin p, fin q => fin (max p q)

/-- JavaScript addition: NaN propagates, Infinity + (-Infinity) is NaN. -/
def jadd : JNum → JNum → JNum
  | nan, _ => nan
  | _, nan => nan
  | inf, ninf => nan
  | ninf, inf => nan
  | inf, _ => inf
  | _, inf => inf
  | ninf, _ => ninf
  | _, ninf => ninf
  | fin p, fin q => fin (p + q)

/-- JavaScript unary negation. -/
def jneg : JNum → JNum
  | nan => nan
  | inf => ninf
  | ninf => inf
  | fin q => fin (-q)

/-- JavaScript subtraction `a - b`, in particular Infinity - Infinity = NaN. -/
def jsub (a b : JNum) : JNum := jadd a (jneg b)

/-- JavaScript division by the literal 2 (used for the midpoints). -/
def jhalf : JNum → JNum
  | nan => nan
  | inf => inf
  | ninf => ninf
  | fin q => fin (q / 2)

/-- JavaScript comparison `a > c` against a finite literal `c`: false when
`a` is NaN. -/
def jgtQ (a : JNum) (c : ℚ) : Bool :=
  match a with
  | nan => false
  | inf => true
  | ninf => false
  | fin q => decide (c < q)

/-- JavaScript comparison `a >= c` against a finite literal. -/
def jgeQ (a : JNum) (c : ℚ) : Bool :=
  match a with
  | nan => false
  | inf => true
  | ninf => false
  | fin q => decide (c ≤ q)

/-- JavaScript comparison `a <= c` against a finite literal. -/
def jleQ (a : JNum) (c : ℚ) : Bool :=
  match a with
  | nan => false
  | inf => false
  | ninf => true
  | fin q => decide (q ≤ c)

/-- JavaScript strict equality `===` on numbers: NaN is not equal to
anything, including itself. -/
def jsEq (a b : JNum) : Bool :=
  match a, b with
  | nan, _ => false
  | _, nan => false
  | x, y => decide (x = y)

end JNum

/-- A JavaScript scalar value that can occur in a coordinate position of the
GeoJSON input: a number (possibly NaN or infinite), `null`, `undefined`, or
a boolean.  (A coordinate entry of any other object type behaves like these
under the code's `typeof` test; the numeric and missing cases cover every
shape the claims mention.) -/
inductive JVal where
  | num : JNum → JVal
  | null : JVal
  | undef : JVal
  | bool : Bool → JVal
deriving DecidableEq, Repr

namespace JVal

/-- JavaScript `typeof v === 'number'`; NaN and the infinities are numbers. -/
def isNumber : JVal → Bool
  | num _ => true
  | _ => false

/-- JavaScript `ToNumber` coercion: `null` coerces to 0, `undefined` to NaN,
booleans to 0/1. -/
def toNumber : JVal → JNum
  | num n => n
  | null => JNum.fin 0
  | undef => JNum.nan
  | bool b => JNum.fin (if b then 1 else 0)

/-- JavaScript global `isNaN(v)` (which coerces via `ToNumber`). -/
def jsIsNaN (v : JVal) : Bool :=
  decide (v.toNumber = JNum.nan)

end JVal

/-- One coordinate entry: the code destructures `const [lng, lat] = coord`,
so only the first two elements matter; an absent element reads as
`undefined`, which `JVal.undef` represents. -/
abbrev Coord := JVal × JVal

/-- A property value of a feature (used only through JavaScript
truthiness by the Dashboard's `last_edited` filter). -/
inductive PropVal where
  | str : String → PropVal
  | num : JNum → PropVal
  | bool : Bool → PropVal
  | null : PropVal
deriving DecidableEq, Repr

/-- JavaScript truthiness of a property value: the empty string, 0, NaN,
`null`, and `false` are falsy; everything else is truthy. -/
def PropVal.truthy : PropVal → Bool
  | .str s => decide (s ≠ "")
  | .num n =>
    match n with
    | .fin q => decide (q ≠ 0)
    | .nan => false
    | .inf => true
    | .ninf => true
  | .bool b => b
  | .null => false

/-- The feature properties the bounds pipeline reads: only `last_edited`
matters (`CITY_NM` and `POP2022` are display-only); `none` models an absent
attribute (JavaScript `undefined`). -/
structure Props where
  last_edited : Option PropVal
deriving DecidableEq, Repr

/-- A geometry: `coordinates` is a sequence of rings, each ring a sequence
of coordinate entries; `none` models an absent `coordinates` attribute
(the code guards with `feature.geometry.coordinates` truthiness; an actual
array, even empty, is truthy). -/
structure Geometry where
  coordinates : Option (List (List Coord))
deriving DecidableEq, Repr

/-- A GeoJSON feature: geometry and properties may each be absent/null
(the code guards both with truthiness checks). -/
structure Feature where
  geometry : Option Geometry
  properties : Option Props
deriving DecidableEq, Repr

/-- The map view returned by `calculateBounds` in `src/unnamed/part_001`:
`{ longitude, latitude, zoom }`. -/
structure ViewBounds where
  longitude : JNum
  latitude : JNum
  zoom : ℕ
deriving DecidableEq, Repr

/-- The map view returned by `calculateBounds` in `src/unnamed/part_000`:
`{ center: [centerLat, centerLng], zoom }`. -/
structure CenterZoom where
  center : JNum × JNum
  zoom : ℕ
deriving DecidableEq, Repr

/-- The zoom-level threshold ladder shared verbatim by both source files:
`if (maxDiff > 3) zoom = 7; else if (maxDiff > 2) zoom = 8; ... else
zoom = 14`.  (The initial `let zoom = 9` is dead: every branch assigns.) -/
def zoomForDiff (maxDiff : JNum) : ℕ :=
  if maxDiff.jgtQ 3 then 7
  else if maxDiff.jgtQ 2 then 8
  else if maxDiff.jgtQ 1 then 9
  else if maxDiff.jgtQ (1/2) then 10
  else if maxDiff.jgtQ (1/5) then 11
  else if maxDiff.jgtQ (1/10) then 12
  else if maxDiff.jgtQ (1/20) then 13
  else 14

/-- The `features.forEach(feature => ... coordinates.forEach(ring =>
ring.forEach(coord => step)))` nesting shared by both source files,
including the `feature.geometry && feature.geometry.coordinates`
truthiness guard. -/
def boundsFold {σ : Type} (step : σ → Coord → σ) (init : σ)
    (features : List Feature) : σ :=
  features.foldl (fun st f =>
    match f.geometry with
    | none => st
    | some g =>
      match g.coordinates with
      | none => st
      | some rings => rings.foldl (fun st ring => ring.foldl step st) st) init

namespace Part001

/-- Accumulator of `calculateBounds` in `src/unnamed/part_001`:
`minLat/maxLat/minLng/maxLng` start at the infinities and
`hasValidCoords` starts false. -/
structure BState where
  minLat : JNum
  maxLat : JNum
  minLng : JNum
  maxLng : JNum
  hasValidCoords : Bool
deriving DecidableEq, Repr

/-- The initial accumulator `minLat = Infinity, maxLat = -Infinity,
minLng = Infinity, maxLng = -Infinity, hasValidCoords = false`. -/
def initState : BState :=
  ⟨JNum.inf, JNum.ninf, JNum.inf, JNum.ninf, false⟩

/-- The body of the innermost `ring.forEach(coord => ...)` of
`src/unnamed/part_001` lines 72-84: destructure `[lng, lat]`, test
`typeof lng === 'number' && typeof lat === 'number' && !isNaN(lng) &&
!isNaN(lat) && lng >= -180 && lng <= 180 && lat >= -90 && lat <= 90`,
and on success fold the point into the running extrema and set
`hasValidCoords`. -/
def step (st : BState) (c : Coord) : BState :=
  let lng := c.1
  let lat := c.2
  if lng.isNumber && lat.isNumber && !lng.jsIsNaN && !lat.jsIsNaN
      && lng.toNumber.jgeQ (-180) && lng.toNumber.jleQ 180
      && lat.toNumber.jgeQ (-90) && lat.toNumber.jleQ 90 then
    { minLat := st.minLat.jmin lat.toNumber
      maxLat := st.maxLat.jmax lat.toNumber
      minLng := st.minLng.jmin lng.toNumber
      maxLng := st.maxLng.jmax lng.toNumber
      hasValidCoords := true }
  else st

/-- `calculateBounds` of `src/unnamed/part_001` (lines 62-122).  A `null`
result is `none`; the guard `!features || features.length === 0` is the
length test (a `null`/`undefined` argument, which also returns `null`,
has no counterpart for a Lean list). -/
def calculateBounds (features : List Feature) : Option ViewBounds :=
  if features.length = 0 then none
  else
    let st := boundsFold step initState features
    if !st.hasValidCoords || st.minLat.jsEq JNum.inf || st.maxLat.jsEq JNum.ninf
        || st.minLng.jsEq JNum.inf || st.maxLng.jsEq JNum.ninf then
      some { longitude := JNum.fin (-96797/1000)
             latitude := JNum.fin (32975/1000)
             zoom := 9 }
    else
      let centerLat := (st.minLat.jadd st.maxLat).jhalf
      let centerLng := (st.minLng.jadd st.maxLng).jhalf
      let latDiff := st.maxLat.jsub st.minLat
      let lngDiff := st.maxLng.jsub st.minLng
      let maxDiff := latDiff.jmax lngDiff
      some { longitude := centerLng
             latitude := centerLat
             zoom := zoomForDiff maxDiff }

end Part001

namespace Part000

/-- Accumulator of `calculateBounds` in `src/unnamed/part_000`: the four
extrema only, with no validity tracking. -/
structure AState where
  minLat : JNum
  maxLat : JNum
  minLng : JNum
  maxLng : JNum
deriving DecidableEq, Repr

/-- The initial accumulator of the part_000 version. -/
def initState : AState :=
  ⟨JNum.inf, JNum.ninf, JNum.inf, JNum.ninf⟩

/-- The innermost loop body of `src/unnamed/part_000` lines 73-79: every
coordinate entry is folded into the extrema unconditionally; `Math.min`
and `Math.max` coerce their arguments via `ToNumber`. -/
def step (st : AState) (c : Coord) : AState :=
  { minLat := st.minLat.jmin c.2.toNumber
    maxLat := st.maxLat.jmax c.2.toNumber
    minLng := st.minLng.jmin c.1.toNumber
    maxLng := st.maxLng.jmax c.1.toNumber }

/-- `calculateBounds` of `src/unnamed/part_000` (lines 64-106): no
validity filter and no fallback; returns `{ center: [centerLat,
centerLng], zoom }`. -/
def calculateBounds (features : List Feature) : Option CenterZoom :=
  if features.length = 0 then none
  else
    let st := boundsFold step initState features
    let centerLat := (st.minLat.jadd st.maxLat).jhalf
    let centerLng := (st.minLng.jadd st.maxLng).jhalf
    let latDiff := st.maxLat.jsub st.minLat
    let lngDiff := st.maxLng.jsub st.minLng
    let maxDiff := latDiff.jmax lngDiff
    some { center := (centerLat, centerLng)
           zoom := zoomForDiff maxDiff }

end Part000

/-- The Dashboard's presence filter (`src/unnamed/part_001` lines 204-206):
`feature.properties && feature.properties.last_edited` — the properties
object must exist and its `last_edited` attribute must be truthy. -/
def featureKept (f : Feature) : Bool :=
  match f.properties with
  | none => false
  | some p =>
    match p.last_edited with
    | none => false
    | some v => v.truthy

/-- The filtered feature list the Dashboard builds before computing the
map view. -/
def filterFeatures (fs : List Feature) : List Feature :=
  fs.filter featureKept

/-- The Dashboard's map-view computation (`src/unnamed/part_001` lines
201-216): filter by `last_edited`, then `calculateBounds` on the result. -/
def dashboardMapView (fs : List Feature) : Option ViewBounds :=
  Part001.calculateBounds (filterFeatures fs)

/-! Specification-side vocabulary.  The following definitions follow the
spec's words (validity filter, valid pairs, extrema, spread ladder) and are
used to state the claims; the theorems relate them to the embedded code. -/

/-- The spec's validity filter, as a partial extraction: a coordinate entry
is valid only if both components are finite numbers with longitude in
[-180, 180] and latitude in [-90, 90]; a valid entry yields its
(longitude, latitude) pair of rationals. -/
def coordValid? (c : Coord) : Option (ℚ × ℚ) :=
  match c with
  | (JVal.num (JNum.fin lng), JVal.num (JNum.fin lat)) =>
    if -180 ≤ lng ∧ lng ≤ 180 ∧ -90 ≤ lat ∧ lat ≤ 90 then some (lng, lat)
    else none
  | _ => none

/-- All coordinate entries of one feature, in traversal order (empty when
the geometry or its coordinates are absent). -/
def featureCoords (f : Feature) : List Coord :=
  match f.geometry with
  | none => []
  | some g =>
    match g.coordinates with
    | none => []
    | some rings => rings.flatten

/-- All coordinate entries of a feature sequence, in traversal order. -/
def allCoords (fs : List Feature) : List Coord :=
  fs.flatMap featureCoords

/-- The valid (longitude, latitude) pairs of a feature sequence. -/
def validPairs (fs : List Feature) : List (ℚ × ℚ) :=
  (allCoords fs).filterMap coordValid?

/-- The latitudes of the valid pairs. -/
def validLats (fs : List Feature) : List ℚ :=
  (validPairs fs).map Prod.snd

/-- The longitudes of the valid pairs. -/
def validLngs (fs : List Feature) : List ℚ :=
  (validPairs fs).map Prod.fst

/-- Minimum of `a` and the elements of `l`. -/
def minOf (a : ℚ) (l : List ℚ) : ℚ := l.foldl min a

/-- Maximum of `a` and the elements of `l`. -/
def maxOf (a : ℚ) (l : List ℚ) : ℚ := l.foldl max a

/-- The spec's threshold ladder on an (exact, rational) spread: first
threshold of 3, 2, 1, 0.5, 0.2, 0.1, 0.05 that the spread strictly
exceeds, descending; zoom 14 if none is exceeded. -/
def specZoom (d : ℚ) : ℕ :=
  if 3 < d then 7
  else if 2 < d then 8
  else if 1 < d then 9
  else if 1/2 < d then 10
  else if 1/5 < d then 11
  else if 1/10 < d then 12
  else if 1/20 < d then 13
  else 14

/-- One feature with every invalid coordinate entry removed from its rings
(ring structure preserved). -/
def stripFeature (f : Feature) : Feature :=
  { f with geometry := f.geometry.map (fun g =>
      { g with coordinates := g.coordinates.map (fun rings =>
          rings.map (fun ring =>
            ring.filter (fun c => (coordValid? c).isSome))) }) }

/-- The same feature sequence with every invalid coordinate entry removed
from its rings (feature count and ring structure preserved). -/
def stripInvalid (fs : List Feature) : List Feature :=
  fs.map stripFeature

/-- Every coordinate entry of every ring of every feature is valid. -/
def allValidB (fs : List Feature) : Bool :=
  (allCoords fs).all (fun c => (coordValid? c).isSome)

/-- The fixed fallback view of part_001. -/
def fallbackView : ViewBounds :=
  { longitude := JNum.fin (-96797/1000), latitude := JNum.fin (32975/1000)
    zoom := 9 }

/-- Shorthand for a coordinate entry holding two finite numbers. -/
def mkPt (lng lat : ℚ) : Coord :=
  (JVal.num (JNum.fin lng), JVal.num (JNum.fin lat))

/-- A feature with a single ring of finite points and no properties. -/
def mkFeature (ring : List (ℚ × ℚ)) : Feature :=
  ⟨some ⟨some [ring.map (fun p => mkPt p.1 p.2)]⟩, none⟩

/-! Fold characterisation lemmas. -/

theorem foldl_foldl_flatten {α σ : Type} (g : σ → α → σ) (L : List (List α))
    (st : σ) :
    L.foldl (fun s ring => ring.foldl g s) st = L.flatten.foldl g st := by
  induction L generalizing st with
  | nil => rfl
  | cons r L ih => simp [List.foldl_append, ih]

theorem allCoords_cons (f : Feature) (fs : List Feature) :
    allCoords (f :: fs) = featureCoords f ++ allCoords fs := by
  simp [allCoords]

theorem boundsFold_cons {σ : Type} (g : σ → Coord → σ) (init : σ)
    (f : Feature) (fs : List Feature) :
    boundsFold g init (f :: fs) = boundsFold g ((featureCoords f).foldl g init) fs := by
  rcases f with ⟨geo, props⟩
  cases geo with
  | none => rfl
  | some g2 =>
    rcases g2 with ⟨coords⟩
    cases coords with
    | none => rfl
    | some rings =>
      show boundsFold g (rings.foldl (fun s ring => ring.foldl g s) init) fs = _
      rw [foldl_foldl_flatten]
      rfl

theorem boundsFold_eq_foldl {σ : Type} (g : σ → Coord → σ) (init : σ)
    (fs : List Feature) :
    boundsFold g init fs = (allCoords fs).foldl g init := by
  induction fs generalizing init with
  | nil => rfl
  | cons f fs ih =>
    rw [boundsFold_cons, ih, allCoords_cons, List.foldl_append]

/-- Folding one valid pair into the part_001 accumulator. -/
def vstep (st : Part001.BState) (p : ℚ × ℚ) : Part001.BState :=
  { minLat := st.minLat.jmin (JNum.fin p.2)
    maxLat := st.maxLat.jmax (JNum.fin p.2)
    minLng := st.minLng.jmin (JNum.fin p.1)
    maxLng := st.maxLng.jmax (JNum.fin p.1)
    hasValidCoords := true }

theorem step_eq_of_valid (st : Part001.BState) (c : Coord) :
    Part001.step st c =
      (match coordValid? c with
       | none => st
       | some p => vstep st p) := by
  rcases c with ⟨lng, lat⟩
  cases lng with
  | num n =>
    cases n with
    | fin q =>
      cases lat with
      | num m =>
        cases m with
        | fin r =>
          simp only [Part001.step, coordValid?, vstep, JVal.isNumber,
            JVal.jsIsNaN, JVal.toNumber, JNum.jgeQ, JNum.jleQ]
          by_cases h : -180 ≤ q ∧ q ≤ 180 ∧ -90 ≤ r ∧ r ≤ 90
          · rw [if_pos h]
            obtain ⟨h1, h2, h3, h4⟩ := h
            simp [h1, h2, h3, h4]
          · rw [if_neg h]
            rcases not_and_or.mp h with h1 | h26
            · simp [h1]
            rcases not_and_or.mp h26 with h2 | h34
            · simp [h2]
            rcases not_and_or.mp h34 with h3 | h4
            · simp [h3]
            · simp [h4]
        | nan => simp [Part001.step, coordValid?, JVal.jsIsNaN, JVal.toNumber]
        | inf => simp [Part001.step, coordValid?, JVal.jsIsNaN, JVal.toNumber,
            JNum.jgeQ, JNum.jleQ]
        | ninf => simp [Part001.step, coordValid?, JVal.jsIsNaN, JVal.toNumber,
            JNum.jgeQ, JNum.jleQ]
      | null => simp [Part001.step, coordValid?, JVal.isNumber]
      | undef => simp [Part001.step, coordValid?, JVal.isNumber]
      | bool b => simp [Part001.step, coordValid?, JVal.isNumber]
    | nan => simp [Part001.step, coordValid?, JVal.jsIsNaN, JVal.toNumber]
    | inf =>
      simp only [Part001.step, coordValid?, JVal.isNumber, JVal.jsIsNaN,
        JVal.toNumber, JNum.jgeQ, JNum.jleQ]
      cases lat with
      | num m => cases m <;> simp
      | null => simp
      | undef => simp
      | bool b => simp
    | ninf =>
      simp only [Part001.step, coordValid?, JVal.isNumber, JVal.jsIsNaN,
        JVal.toNumber, JNum.jgeQ, JNum.jleQ]
      cases lat with
      | num m => cases m <;> simp
      | null => simp
      | undef => simp
      | bool b => simp
  | null => simp [Part001.step, coordValid?, JVal.isNumber]
  | undef => simp [Part001.step, coordValid?, JVal.isNumber]
  | bool b => simp [Part001.step, coordValid?, JVal.isNumber]

theorem foldl_step_eq_foldl_vstep (coords : List Coord)
    (st : Part001.BState) :
    coords.foldl Part001.step st =
      (coords.filterMap coordValid?).foldl vstep st := by
  induction coords generalizing st with
  | nil => rfl
  | cons c cs ih =>
    rw [List.foldl_cons, List.filterMap_cons]
    cases h : coordValid? c with
    | none =>
      have hc : Part001.step st c = st := by rw [step_eq_of_valid, h]
      rw [hc, ih]
    | some p =>
      have hc : Part001.step st c = vstep st p := by rw [step_eq_of_valid, h]
      rw [hc, ih]
      rfl

theorem foldl_vstep_fin (ps : List (ℚ × ℚ)) :
    ∀ a b c d : ℚ,
      ps.foldl vstep ⟨JNum.fin a, JNum.fin b, JNum.fin c, JNum.fin d, true⟩ =
        ⟨JNum.fin (minOf a (ps.map Prod.snd)), JNum.fin (maxOf b (ps.map Prod.snd)),
         JNum.fin (minOf c (ps.map Prod.fst)), JNum.fin (maxOf d (ps.map Prod.fst)),
         true⟩ := by
  induction ps with
  | nil => intro a b c d; simp [minOf, maxOf]
  | cons p ps ih =>
    intro a b c d
    rw [List.foldl_cons]
    show ps.foldl vstep
        ⟨(JNum.fin a).jmin (JNum.fin p.2), (JNum.fin b).jmax (JNum.fin p.2),
         (JNum.fin c).jmin (JNum.fin p.1), (JNum.fin d).jmax (JNum.fin p.1),
         true⟩ = _
    simp only [JNum.jmin, JNum.jmax, ih, minOf, maxOf, List.map_cons,
      List.foldl_cons]

theorem jsEq_fin_inf (x : ℚ) : (JNum.fin x).jsEq JNum.inf = false := by
  simp [JNum.jsEq]

theorem jsEq_fin_ninf (x : ℚ) : (JNum.fin x).jsEq JNum.ninf = false := by
  simp [JNum.jsEq]

theorem jadd_fin (a b : ℚ) : (JNum.fin a).jadd (JNum.fin b) = JNum.fin (a + b) := rfl

theorem jhalf_fin (a : ℚ) : (JNum.fin a).jhalf = JNum.fin (a / 2) := rfl

theorem jsub_fin (a b : ℚ) : (JNum.fin a).jsub (JNum.fin b) = JNum.fin (a - b) := by
  simp [JNum.jsub, JNum.jneg, JNum.jadd, sub_eq_add_neg]

theorem jmax_fin (a b : ℚ) : (JNum.fin a).jmax (JNum.fin b) = JNum.fin (max a b) := rfl

theorem zoomForDiff_fin (d : ℚ) : zoomForDiff (JNum.fin d) = specZoom d := by
  simp [zoomForDiff, specZoom, JNum.jgtQ]

theorem validPairs_nil : validPairs [] = [] := rfl

theorem length_ne_zero_of_validPairs (fs : List Feature) (p : ℚ × ℚ)
    (ps : List (ℚ × ℚ)) (h : validPairs fs = p :: ps) : ¬ fs.length = 0 := by
  intro h0
  rw [List.length_eq_zero.mp h0] at h
  exact List.noConfusion h

/-- Characterisation of the part_001 `calculateBounds` on an input with at
least one valid pair: midpoint centers and ladder zoom over the valid
pairs. -/
theorem calc001_of_validPairs (fs : List Feature) (p : ℚ × ℚ)
    (ps : List (ℚ × ℚ)) (h : validPairs fs = p :: ps) :
    Part001.calculateBounds fs = some
      { longitude := JNum.fin
          ((minOf p.1 (ps.map Prod.fst) + maxOf p.1 (ps.map Prod.fst)) / 2)
        latitude := JNum.fin
          ((minOf p.2 (ps.map Prod.snd) + maxOf p.2 (ps.map Prod.snd)) / 2)
        zoom := specZoom
          (max (maxOf p.2 (ps.map Prod.snd) - minOf p.2 (ps.map Prod.snd))
               (maxOf p.1 (ps.map Prod.fst) - minOf p.1 (ps.map Prod.fst))) } := by
  have hst : boundsFold Part001.step Part001.initState fs =
      ⟨JNum.fin (minOf p.2 (ps.map Prod.snd)), JNum.fin (maxOf p.2 (ps.map Prod.snd)),
       JNum.fin (minOf p.1 (ps.map Prod.fst)), JNum.fin (maxOf p.1 (ps.map Prod.fst)),
       true⟩ := by
    rw [boundsFold_eq_foldl, foldl_step_eq_foldl_vstep]
    show ((allCoords fs).filterMap coordValid?).foldl vstep Part001.initState = _
    rw [show (allCoords fs).filterMap coordValid? = validPairs fs from rfl, h,
      List.foldl_cons]
    show ps.foldl vstep
        ⟨JNum.inf.jmin (JNum.fin p.2), JNum.ninf.jmax (JNum.fin p.2),
         JNum.inf.jmin (JNum.fin p.1), JNum.ninf.jmax (JNum.fin p.1), true⟩ = _
    rw [show JNum.inf.jmin (JNum.fin p.2) = JNum.fin p.2 from rfl,
      show JNum.ninf.jmax (JNum.fin p.2) = JNum.fin p.2 from rfl,
      show JNum.inf.jmin (JNum.fin p.1) = JNum.fin p.1 from rfl,
      show JNum.ninf.jmax (JNum.fin p.1) = JNum.fin p.1 from rfl,
      foldl_vstep_fin]
  rw [Part001.calculateBounds, if_neg (length_ne_zero_of_validPairs fs p ps h)]
  simp only [hst, jsEq_fin_inf, jsEq_fin_ninf, Bool.not_true, Bool.or_false,
    Bool.false_or, if_neg, Bool.false_eq_true, not_false_eq_true,
    jadd_fin, jhalf_fin, jsub_fin, jmax_fin, zoomForDiff_fin]

/-- Characterisation of the part_001 `calculateBounds` on a non-empty input
with no valid pair: the fixed fallback view. -/
theorem calc001_fallback (fs : List Feature) (h0 : ¬ fs.length = 0)
    (h : validPairs fs = []) :
    Part001.calculateBounds fs = some fallbackView := by
  have hst : boundsFold Part001.step Part001.initState fs = Part001.initState := by
    rw [boundsFold_eq_foldl, foldl_step_eq_foldl_vstep]
    rw [show (allCoords fs).filterMap coordValid? = validPairs fs from rfl, h]
    rfl
  rw [Part001.calculateBounds, if_neg h0]
  simp only [hst]
  rfl

/-- The part_001 `calculateBounds` never returns `null` on a non-empty
input. -/
theorem calc001_isSome (fs : List Feature) (h0 : ¬ fs.length = 0) :
    (Part001.calculateBounds fs).isSome = true := by
  rw [Part001.calculateBounds, if_neg h0]
  dsimp only
  split <;> rfl

theorem flatten_map_filter {α : Type} (v : α → Bool) (L : List (List α)) :
    (L.map (fun ring => ring.filter v)).flatten = L.flatten.filter v := by
  induction L with
  | nil => rfl
  | cons r rs ih =>
    rw [List.map_cons, List.flatten_cons, List.flatten_cons, List.filter_append, ih]

theorem featureCoords_strip (f : Feature) :
    featureCoords (stripFeature f) =
      (featureCoords f).filter (fun c => (coordValid? c).isSome) := by
  rcases f with ⟨geo, props⟩
  cases geo with
  | none => rfl
  | some g2 =>
    rcases g2 with ⟨coords⟩
    cases coords with
    | none => rfl
    | some rings =>
      show (rings.map (fun ring =>
          ring.filter (fun c => (coordValid? c).isSome))).flatten =
        rings.flatten.filter (fun c => (coordValid? c).isSome)
      exact flatten_map_filter _ rings

theorem allCoords_strip (fs : List Feature) :
    allCoords (stripInvalid fs) =
      (allCoords fs).filter (fun c => (coordValid? c).isSome) := by
  induction fs with
  | nil => rfl
  | cons f fs ih =>
    rw [show stripInvalid (f :: fs) = stripFeature f :: stripInvalid fs from rfl,
      allCoords_cons, allCoords_cons, List.filter_append, featureCoords_strip, ih]

theorem filterMap_filter_isSome {α β : Type} (g : α → Option β) (l : List α) :
    (l.filter (fun c => (g c).isSome)).filterMap g = l.filterMap g := by
  induction l with
  | nil => rfl
  | cons c cs ih =>
    rw [List.filter_cons]
    cases h : g c with
    | none => simp [List.filterMap_cons, h, ih]
    | some b => simp [List.filterMap_cons, h, ih]

theorem validPairs_strip (fs : List Feature) :
    validPairs (stripInvalid fs) = validPairs fs := by
  rw [validPairs, validPairs, allCoords_strip, filterMap_filter_isSome]

theorem length_strip (fs : List Feature) :
    (stripInvalid fs).length = fs.length := List.length_map ..

/-- Removing the invalid coordinate entries does not change the part_001
result. -/
theorem calc001_strip (fs : List Feature) :
    Part001.calculateBounds (stripInvalid fs) = Part001.calculateBounds fs := by
  have hst : boundsFold Part001.step Part001.initState (stripInvalid fs) =
      boundsFold Part001.step Part001.initState fs := by
    rw [boundsFold_eq_foldl, boundsFold_eq_foldl, foldl_step_eq_foldl_vstep,
      foldl_step_eq_foldl_vstep,
      show (allCoords (stripInvalid fs)).filterMap coordValid? =
        validPairs (stripInvalid fs) from rfl,
      show (allCoords fs).filterMap coordValid? = validPairs fs from rfl,
      validPairs_strip]
  rw [Part001.calculateBounds, Part001.calculateBounds, length_strip, hst]

/-! The part_000 version, characterised on all-valid inputs. -/

/-- Folding one valid pair into the part_000 accumulator. -/
def vstep0 (st : Part000.AState) (p : ℚ × ℚ) : Part000.AState :=
  { minLat := st.minLat.jmin (JNum.fin p.2)
    maxLat := st.maxLat.jmax (JNum.fin p.2)
    minLng := st.minLng.jmin (JNum.fin p.1)
    maxLng := st.maxLng.jmax (JNum.fin p.1) }

theorem step000_eq_of_valid (st : Part000.AState) (c : Coord) (p : ℚ × ℚ)
    (h : coordValid? c = some p) : Part000.step st c = vstep0 st p := by
  rcases c with ⟨lng, lat⟩
  cases lng with
  | num n =>
    cases n with
    | fin q =>
      cases lat with
      | num m =>
        cases m with
        | fin r =>
          have hp : p = (q, r) := by
            by_cases hcond : -180 ≤ q ∧ q ≤ 180 ∧ -90 ≤ r ∧ r ≤ 90
            · rw [coordValid?, if_pos hcond] at h
              exact (Option.some_injective _ h).symm
            · rw [coordValid?, if_neg hcond] at h
              exact absurd h (Option.noConfusion)
          subst hp
          rfl
        | nan => simp [coordValid?] at h
        | inf => simp [coordValid?] at h
        | ninf => simp [coordValid?] at h
      | null => simp [coordValid?] at h
      | undef => simp [coordValid?] at h
      | bool b => simp [coordValid?] at h
    | nan => cases lat <;> simp [coordValid?] at h
    | inf => cases lat <;> simp [coordValid?] at h
    | ninf => cases lat <;> simp [coordValid?] at h
  | null => simp [coordValid?] at h
  | undef => simp [coordValid?] at h
  | bool b => simp [coordValid?] at h

theorem foldl_step000_eq_foldl_vstep0 (coords : List Coord)
    (hall : ∀ c ∈ coords, (coordValid? c).isSome = true) :
    ∀ st : Part000.AState,
      coords.foldl Part000.step st =
        (coords.filterMap coordValid?).foldl vstep0 st := by
  induction coords with
  | nil => intro st; rfl
  | cons c cs ih =>
    intro st
    have hc : (coordValid? c).isSome = true := hall c (List.mem_cons_self ..)
    obtain ⟨p, hp⟩ := Option.isSome_iff_exists.mp hc
    rw [List.foldl_cons, List.filterMap_cons, hp, step000_eq_of_valid st c p hp]
    exact ih (fun c hmem => hall c (List.mem_cons_of_mem _ hmem)) (vstep0 st p)

theorem foldl_vstep0_fin (ps : List (ℚ × ℚ)) :
    ∀ a b c d : ℚ,
      ps.foldl vstep0 ⟨JNum.fin a, JNum.fin b, JNum.fin c, JNum.fin d⟩ =
        ⟨JNum.fin (minOf a (ps.map Prod.snd)), JNum.fin (maxOf b (ps.map Prod.snd)),
         JNum.fin (minOf c (ps.map Prod.fst)),
         JNum.fin (maxOf d (ps.map Prod.fst))⟩ := by
  induction ps with
  | nil => intro a b c d; simp [minOf, maxOf]
  | cons p ps ih =>
    intro a b c d
    rw [List.foldl_cons]
    show ps.foldl vstep0
        ⟨(JNum.fin a).jmin (JNum.fin p.2), (JNum.fin b).jmax (JNum.fin p.2),
         (JNum.fin c).jmin (JNum.fin p.1), (JNum.fin d).jmax (JNum.fin p.1)⟩ = _
    simp only [JNum.jmin, JNum.jmax, ih, minOf, maxOf, List.map_cons,
      List.foldl_cons]

/-- Characterisation of the part_000 `calculateBounds` on an all-valid
input with at least one pair: same midpoints and ladder zoom as part_001,
with the center stored as a (latitude, longitude) pair. -/
theorem calc000_of_validPairs (fs : List Feature) (p : ℚ × ℚ)
    (ps : List (ℚ × ℚ)) (hall : allValidB fs = true)
    (h : validPairs fs = p :: ps) :
    Part000.calculateBounds fs = some
      { center :=
          (JNum.fin
            ((minOf p.2 (ps.map Prod.snd) + maxOf p.2 (ps.map Prod.snd)) / 2),
           JNum.fin
            ((minOf p.1 (ps.map Prod.fst) + maxOf p.1 (ps.map Prod.fst)) / 2))
        zoom := specZoom
          (max (maxOf p.2 (ps.map Prod.snd) - minOf p.2 (ps.map Prod.snd))
               (maxOf p.1 (ps.map Prod.fst) - minOf p.1 (ps.map Prod.fst))) } := by
  have hall' : ∀ c ∈ allCoords fs, (coordValid? c).isSome = true :=
    fun c hmem => List.all_eq_true.mp hall c hmem
  have hst : boundsFold Part000.step Part000.initState fs =
      ⟨JNum.fin (minOf p.2 (ps.map Prod.snd)), JNum.fin (maxOf p.2 (ps.map Prod.snd)),
       JNum.fin (minOf p.1 (ps.map Prod.fst)),
       JNum.fin (maxOf p.1 (ps.map Prod.fst))⟩ := by
    rw [boundsFold_eq_foldl, foldl_step000_eq_foldl_vstep0 _ hall',
      show (allCoords fs).filterMap coordValid? = validPairs fs from rfl, h,
      List.foldl_cons]
    show ps.foldl vstep0
        ⟨JNum.inf.jmin (JNum.fin p.2), JNum.ninf.jmax (JNum.fin p.2),
         JNum.inf.jmin (JNum.fin p.1), JNum.ninf.jmax (JNum.fin p.1)⟩ = _
    rw [show JNum.inf.jmin (JNum.fin p.2) = JNum.fin p.2 from rfl,
      show JNum.ninf.jmax (JNum.fin p.2) = JNum.fin p.2 from rfl,
      show JNum.inf.jmin (JNum.fin p.1) = JNum.fin p.1 from rfl,
      show JNum.ninf.jmax (JNum.fin p.1) = JNum.fin p.1 from rfl,
      foldl_vstep0_fin]
  rw [Part000.calculateBounds, if_neg (length_ne_zero_of_validPairs fs p ps h)]
  simp only [hst, jadd_fin, jhalf_fin, jsub_fin, jmax_fin, zoomForDiff_fin]

theorem zoomForDiff_mem (d : JNum) :
    zoomForDiff d ∈ ({7, 8, 9, 10, 11, 12, 13, 14} : Finset ℕ) := by
  rw [zoomForDiff]
  split_ifs <;> decide

theorem featureKept_iff (f : Feature) :
    featureKept f = true ↔
      ∃ p v, f.properties = some p ∧ p.last_edited = some v ∧ v.truthy = true := by
  rcases f with ⟨geo, props⟩
  cases props with
  | none => simp [featureKept]
  | some p =>
    cases hp : p.last_edited with
    | none => simp [featureKept, hp]
    | some v => simp [featureKept, hp]

/-! Concrete inputs used by the claims. -/

/-- A feature with neither geometry nor properties. -/
def emptyFeature : Feature := ⟨none, none⟩

/-- Two one-point features whose combined coordinates span exactly 1.0 in
latitude (33 to 34) and 0.4 in longitude (-97 to -96.6). -/
def spanInput : List Feature :=
  [mkFeature [(-97, 33)], mkFeature [(-483/5, 34)]]

/-- A single feature whose ring spans exactly 0.6 in latitude and 0 in
longitude. -/
def spread06Input : List Feature :=
  [mkFeature [(-97, 33), (-97, 168/5)]]

/-- A single feature whose ring spans exactly 1.5 in latitude and 0 in
longitude. -/
def spread15Input : List Feature :=
  [mkFeature [(-97, 33), (-97, 69/2)]]

/-- A batch with two valid pairs and one pair whose latitude 95 is out of
range. -/
def mixedBatch : List Feature :=
  [mkFeature [(-97, 33), (-96, 34), (-193/2, 95)]]

/-- The same batch with the invalid pair removed. -/
def cleanBatch : List Feature :=
  [mkFeature [(-97, 33), (-96, 34)]]

/-- The degenerate single-point ring duplicated, from the spec's test
property list. -/
def degenInput : List Feature :=
  [mkFeature [(-97, 33), (-97, 33)]]

/-- A single feature with a single valid point. -/
def singlePointInput : List Feature :=
  [mkFeature [(-97, 33)]]

/-! Evaluation of the embedded code on the concrete inputs.  (Kernel
reduction is blocked on rational arithmetic, so these go through the
characterisation lemmas and `norm_num`.) -/

theorem validPairs_spanInput :
    validPairs spanInput = [(-97, 33), (-483/5, 34)] := by
  norm_num [validPairs, allCoords, featureCoords, coordValid?, spanInput,
    mkFeature, mkPt, List.filterMap_cons]

theorem calc_spanInput :
    Part001.calculateBounds spanInput = some
      { longitude := JNum.fin (-484/5), latitude := JNum.fin (67/2)
        zoom := 10 } := by
  rw [calc001_of_validPairs spanInput (-97, 33) [(-483/5, 34)]
    validPairs_spanInput]
  norm_num [minOf, maxOf, specZoom, min_def, max_def]

theorem validLats_spanInput : validLats spanInput = [33, 34] := by
  rw [validLats, validPairs_spanInput]
  rfl

theorem validLngs_spanInput : validLngs spanInput = [-97, -483/5] := by
  rw [validLngs, validPairs_spanInput]
  rfl

theorem validPairs_spread06 :
    validPairs spread06Input = [(-97, 33), (-97, 168/5)] := by
  norm_num [validPairs, allCoords, featureCoords, coordValid?, spread06Input,
    mkFeature, mkPt, List.filterMap_cons]

theorem calc_spread06 :
    Part001.calculateBounds spread06Input = some
      { longitude := JNum.fin (-97), latitude := JNum.fin (333/10)
        zoom := 10 } := by
  rw [calc001_of_validPairs spread06Input (-97, 33) [(-97, 168/5)]
    validPairs_spread06]
  norm_num [minOf, maxOf, specZoom, min_def, max_def]

theorem validPairs_spread15 :
    validPairs spread15Input = [(-97, 33), (-97, 69/2)] := by
  norm_num [validPairs, allCoords, featureCoords, coordValid?, spread15Input,
    mkFeature, mkPt, List.filterMap_cons]

theorem calc_spread15 :
    Part001.calculateBounds spread15Input = some
      { longitude := JNum.fin (-97), latitude := JNum.fin (135/4)
        zoom := 9 } := by
  rw [calc001_of_validPairs spread15Input (-97, 33) [(-97, 69/2)]
    validPairs_spread15]
  norm_num [minOf, maxOf, specZoom, min_def, max_def]

theorem validPairs_mixedBatch :
    validPairs mixedBatch = [(-97, 33), (-96, 34)] := by
  norm_num [validPairs, allCoords, featureCoords, coordValid?, mixedBatch,
    mkFeature, mkPt, List.filterMap_cons]

theorem validPairs_cleanBatch :
    validPairs cleanBatch = [(-97, 33), (-96, 34)] := by
  norm_num [validPairs, allCoords, featureCoords, coordValid?, cleanBatch,
    mkFeature, mkPt, List.filterMap_cons]

theorem calc_mixedBatch :
    Part001.calculateBounds mixedBatch = some
      { longitude := JNum.fin (-193/2), latitude := JNum.fin (67/2)
        zoom := 10 } := by
  rw [calc001_of_validPairs mixedBatch (-97, 33) [(-96, 34)]
    validPairs_mixedBatch]
  norm_num [minOf, maxOf, specZoom, min_def, max_def]

theorem calc_cleanBatch :
    Part001.calculateBounds cleanBatch = some
      { longitude := JNum.fin (-193/2), latitude := JNum.fin (67/2)
        zoom := 10 } := by
  rw [calc001_of_validPairs cleanBatch (-97, 33) [(-96, 34)]
    validPairs_cleanBatch]
  norm_num [minOf, maxOf, specZoom, min_def, max_def]

theorem validPairs_degenInput :
    validPairs degenInput = [(-97, 33), (-97, 33)] := by
  norm_num [validPairs, allCoords, featureCoords, coordValid?, degenInput,
    mkFeature, mkPt, List.filterMap_cons]

theorem calc_degenInput :
    Part001.calculateBounds degenInput = some
      { longitude := JNum.fin (-97), latitude := JNum.fin 33
        zoom := 14 } := by
  rw [calc001_of_validPairs degenInput (-97, 33) [(-97, 33)]
    validPairs_degenInput]
  norm_num [minOf, maxOf, specZoom, min_def, max_def]

theorem validPairs_singlePoint :
    validPairs singlePointInput = [(-97, 33)] := by
  norm_num [validPairs, allCoords, featureCoords, coordValid?,
    singlePointInput, mkFeature, mkPt, List.filterMap_cons]

theorem allValidB_singlePoint : allValidB singlePointInput = true := by
  norm_num [allValidB, allCoords, featureCoords, coordValid?,
    singlePointInput, mkFeature, mkPt, List.all_cons]

/-! Claim C1. -/

/-- Claim C1 as stated is false on the code: the empty feature sequence has
zero valid pairs, yet `calculateBounds` returns `null` (not the fixed
fallback) because of the early `features.length === 0` return. -/
theorem claim1_counterexample :
    Part001.calculateBounds [] = none ∧
      Part001.calculateBounds [] ≠ some fallbackView := by
  refine ⟨rfl, fun hcontra => ?_⟩
  rw [show Part001.calculateBounds [] = none from rfl] at hcontra
  exact Option.noConfusion hcontra

/-- Claim C1 (amended): for every NON-EMPTY input in which zero valid
coordinate pairs are found — features with malformed or missing geometries,
or with only invalid coordinate pairs — `calculateBounds` returns exactly
the fixed fallback `{ latitude: 32.9750, longitude: -96.7970, zoom: 9 }`;
the empty feature sequence instead returns `null`. -/
theorem claim1_nonempty_fallback (fs : List Feature) (hne : fs ≠ [])
    (h : validPairs fs = []) :
    Part001.calculateBounds fs = some fallbackView :=
  calc001_fallback fs (fun h0 => hne (List.length_eq_zero.mp h0)) h

/-- Claim C1 witness: a one-feature input with no geometry yields the
fallback. -/
theorem claim1_witness :
    Part001.calculateBounds [emptyFeature] = some fallbackView :=
  claim1_nonempty_fallback [emptyFeature] (by decide) rfl

/-! Claim C2. -/

/-- Claim C2 as stated is false on the code: on the empty feature sequence
`calculateBounds` returns `null`, not a ViewBounds record. -/
theorem claim2_counterexample :
    (Part001.calculateBounds []).isSome = false := rfl

/-- Claim C2 (amended): `calculateBounds` is total and never signals an
error, and on every NON-EMPTY input — including inputs containing only
invalid coordinates — it returns a well-formed ViewBounds record; on the
empty sequence it returns `null` (still not an error). -/
theorem claim2_total_nonempty (fs : List Feature) (hne : fs ≠ []) :
    (Part001.calculateBounds fs).isSome = true :=
  calc001_isSome fs (fun h0 => hne (List.length_eq_zero.mp h0))

/-- Claim C2 witness. -/
theorem claim2_witness :
    (Part001.calculateBounds [emptyFeature]).isSome = true :=
  claim2_total_nonempty [emptyFeature] (by decide)

/-! Claim C3. -/

/-- Claim C3 as stated is false on the code: an input spanning exactly 1.0
in latitude and 0.4 in longitude yields zoom 10 (the ladder is strict, so
spread 1.0 does not exceed the threshold 1), not zoom 9 as the claim's
first conjunct demands. -/
theorem claim3_counterexample :
    Option.map ViewBounds.zoom (Part001.calculateBounds spanInput) = some 10 ∧
      Option.map ViewBounds.zoom (Part001.calculateBounds spanInput) ≠ some 9 := by
  rw [calc_spanInput]
  exact ⟨rfl, by decide⟩

/-- Claim C3 (amended): an input whose combined valid coordinates span
exactly 1.0 in latitude and 0.4 in longitude yields zoom 10 (not 9); any
spread strictly above 0.5 and at or below 1 yields zoom 10; an input of
spread exactly 0.6 yields zoom 10 and an input of spread exactly 1.5
yields zoom 9. -/
theorem claim3_zoom_thresholds :
    (∀ d : ℚ, 1/2 < d → d ≤ 1 → zoomForDiff (JNum.fin d) = 10) ∧
      Option.map ViewBounds.zoom (Part001.calculateBounds spanInput) = some 10 ∧
      Option.map ViewBounds.zoom (Part001.calculateBounds spread06Input) = some 10 ∧
      Option.map ViewBounds.zoom (Part001.calculateBounds spread15Input) = some 9 := by
  refine ⟨fun d h1 h2 => ?_, by rw [calc_spanInput]; rfl,
    by rw [calc_spread06]; rfl, by rw [calc_spread15]; rfl⟩
  rw [zoomForDiff_fin, specZoom, if_neg (by linarith), if_neg (by linarith),
    if_neg (by linarith), if_pos h1]

/-- Claim C3 witness: the general threshold statement applied at spread
0.6. -/
theorem claim3_witness :
    (1/2 : ℚ) < 3/5 ∧ (3/5 : ℚ) ≤ 1 ∧ zoomForDiff (JNum.fin (3/5)) = 10 :=
  ⟨by norm_num, by norm_num,
    claim3_zoom_thresholds.1 (3/5) (by norm_num) (by norm_num)⟩

/-! Claim C4. -/

/-- Claim C4: on every input with at least one valid coordinate pair,
`calculateBounds` returns the midpoint of the min/max latitude and of the
min/max longitude over the valid pairs, and the zoom selected from
`spread = max(latSpan, lngSpan)` by the strict descending threshold ladder
3, 2, 1, 0.5, 0.2, 0.1, 0.05 with default 14. -/
theorem claim4_center_zoom (fs : List Feature) (a b : ℚ) (l m : List ℚ)
    (hlat : validLats fs = a :: l) (hlng : validLngs fs = b :: m) :
    Part001.calculateBounds fs = some
      { longitude := JNum.fin ((minOf b m + maxOf b m) / 2)
        latitude := JNum.fin ((minOf a l + maxOf a l) / 2)
        zoom := specZoom
          (max (maxOf a l - minOf a l) (maxOf b m - minOf b m)) } := by
  cases hvp : validPairs fs with
  | nil =>
    rw [validLats, hvp] at hlat
    exact absurd hlat (by simp)
  | cons p ps =>
    rw [validLats, hvp, List.map_cons] at hlat
    rw [validLngs, hvp, List.map_cons] at hlng
    obtain ⟨ha, hl⟩ := List.cons_eq_cons.mp hlat
    obtain ⟨hb, hm⟩ := List.cons_eq_cons.mp hlng
    rw [calc001_of_validPairs fs p ps hvp, ha, hl, hb, hm]

/-- Claim C4 witness: the two-feature span input, whose valid latitudes are
33 and 34 and valid longitudes are -97 and -96.6. -/
theorem claim4_witness :
    Part001.calculateBounds spanInput = some
      { longitude := JNum.fin ((minOf (-97) [-483/5] + maxOf (-97) [-483/5]) / 2)
        latitude := JNum.fin ((minOf 33 [34] + maxOf 33 [34]) / 2)
        zoom := specZoom
          (max (maxOf 33 [34] - minOf 33 [34])
               (maxOf (-97) [-483/5] - minOf (-97) [-483/5])) } :=
  claim4_center_zoom spanInput 33 (-97) [34] [-483/5]
    validLats_spanInput validLngs_spanInput

/-! Claim C5. -/

/-- Claim C5: the extrema are accumulated only over valid coordinate pairs
— removing every invalid pair from the input never changes the result —
and in particular the mixed batch containing an out-of-range latitude 95
yields the same bounds as the batch with that pair removed. -/
theorem claim5_invalid_skipped :
    (∀ fs : List Feature,
      Part001.calculateBounds (stripInvalid fs) = Part001.calculateBounds fs) ∧
      Part001.calculateBounds mixedBatch = Part001.calculateBounds cleanBatch ∧
      Part001.calculateBounds mixedBatch = some
        { longitude := JNum.fin (-193/2), latitude := JNum.fin (67/2)
          zoom := 10 } := by
  refine ⟨calc001_strip, by rw [calc_mixedBatch, calc_cleanBatch], calc_mixedBatch⟩

/-! Claim C6. -/

/-- Claim C6: whenever `calculateBounds` returns a ViewBounds, its zoom is
one of 7, 8, 9, 10, 11, 12, 13, 14. -/
theorem claim6_zoom_range (fs : List Feature) (vb : ViewBounds)
    (h : Part001.calculateBounds fs = some vb) :
    vb.zoom ∈ ({7, 8, 9, 10, 11, 12, 13, 14} : Finset ℕ) := by
  rw [Part001.calculateBounds] at h
  by_cases h0 : fs.length = 0
  · rw [if_pos h0] at h
    exact Option.noConfusion h
  · rw [if_neg h0] at h
    dsimp only at h
    split at h
    · obtain rfl := Option.some_injective _ h
      decide
    · obtain rfl := Option.some_injective _ h
      exact zoomForDiff_mem _

/-- Claim C6 witness: the degenerate one-point input, whose zoom is 14. -/
theorem claim6_witness :
    ({ longitude := JNum.fin (-97), latitude := JNum.fin 33,
       zoom := 14 } : ViewBounds).zoom ∈
      ({7, 8, 9, 10, 11, 12, 13, 14} : Finset ℕ) :=
  claim6_zoom_range degenInput _ calc_degenInput

/-! Claim C7. -/

/-- Claim C7: the single feature with the duplicated point
`[[-97.0, 33.0], [-97.0, 33.0]]` yields center latitude 33.0, center
longitude -97.0, and zoom 14. -/
theorem claim7_degenerate_ring :
    Part001.calculateBounds degenInput = some
      { longitude := JNum.fin (-97), latitude := JNum.fin 33, zoom := 14 } :=
  calc_degenInput

/-! Claim C8. -/

/-- Claim C8: `calculateBounds` is deterministic — identical input always
yields identical output.  (The embedding is a pure function of its
argument, which is faithful: the source reads no state other than its
parameter and local variables and performs no I/O.) -/
theorem claim8_deterministic (fs₁ fs₂ : List Feature) (h : fs₁ = fs₂) :
    Part001.calculateBounds fs₁ = Part001.calculateBounds fs₂ :=
  congrArg Part001.calculateBounds h

/-- Claim C8 witness. -/
theorem claim8_witness :
    Part001.calculateBounds degenInput = Part001.calculateBounds degenInput :=
  claim8_deterministic degenInput degenInput rfl

/-! Claim C9. -/

/-- Claim C9: the Dashboard keeps exactly the features whose properties
object exists and has a truthy `last_edited` attribute, applies
`calculateBounds` to that filtered sequence, and a feature lacking a
truthy `last_edited` contributes nothing to the computed view wherever it
sits in the sequence. -/
theorem claim9_filter :
    (∀ (fs : List Feature) (f : Feature),
      f ∈ filterFeatures fs ↔
        f ∈ fs ∧ ∃ p v, f.properties = some p ∧ p.last_edited = some v ∧
          v.truthy = true) ∧
      (∀ (fs₁ fs₂ : List Feature) (f : Feature), featureKept f = false →
        dashboardMapView (fs₁ ++ f :: fs₂) = dashboardMapView (fs₁ ++ fs₂)) := by
  constructor
  · intro fs f
    rw [filterFeatures, List.mem_filter, featureKept_iff]
  · intro fs₁ fs₂ f h
    simp [dashboardMapView, filterFeatures, List.filter_append, List.filter_cons, h]

/-- Claim C9 witness: a feature with no properties is dropped by the
filter and does not change the computed view. -/
theorem claim9_witness :
    featureKept emptyFeature = false ∧
      dashboardMapView ([] ++ emptyFeature :: []) = dashboardMapView ([] ++ []) :=
  ⟨rfl, claim9_filter.2 [] [] emptyFeature rfl⟩

/-! Claim C10. -/

/-- Claim C10 as stated is false on the code: a non-empty input all of
whose coordinate pairs are (vacuously) valid — one feature with no
geometry — makes part_001 return the fixed fallback (zoom 9) while
part_000 divides the untouched infinities and returns a NaN center with
zoom 14. -/
theorem claim10_counterexample :
    allValidB [emptyFeature] = true ∧
      Part000.calculateBounds [emptyFeature] = some
        { center := (JNum.nan, JNum.nan), zoom := 14 } ∧
      Part001.calculateBounds [emptyFeature] = some fallbackView ∧
      Option.map (fun vb => (vb.latitude, vb.longitude, vb.zoom))
          (Part001.calculateBounds [emptyFeature]) ≠
        Option.map (fun cz => (cz.center.1, cz.center.2, cz.zoom))
          (Part000.calculateBounds [emptyFeature]) := by
  refine ⟨rfl, rfl, rfl, fun hcontra => ?_⟩
  have h2 : (JNum.fin (32975/1000), JNum.fin (-96797/1000), (9 : ℕ)) =
      (JNum.nan, JNum.nan, (14 : ℕ)) := Option.some_injective _ hcontra
  exact JNum.noConfusion (congrArg Prod.fst h2)

/-- Claim C10 (amended): on every input that moreover contains at least one
coordinate pair, with every pair of every ring valid, the two versions of
`calculateBounds` agree on center latitude, center longitude, and zoom. -/
theorem claim10_equiv_on_valid (fs : List Feature) (p : ℚ × ℚ)
    (ps : List (ℚ × ℚ)) (hall : allValidB fs = true)
    (h : validPairs fs = p :: ps) :
    Option.map (fun vb => (vb.latitude, vb.longitude, vb.zoom))
        (Part001.calculateBounds fs) =
      Option.map (fun cz => (cz.center.1, cz.center.2, cz.zoom))
        (Part000.calculateBounds fs) := by
  rw [calc001_of_validPairs fs p ps h, calc000_of_validPairs fs p ps hall h]
  rfl

/-- Claim C10 witness: both versions agree on a one-point input. -/
theorem claim10_witness :
    Option.map (fun vb => (vb.latitude, vb.longitude, vb.zoom))
        (Part001.calculateBounds singlePointInput) =
      Option.map (fun cz => (cz.center.1, cz.center.2, cz.zoom))
        (Part000.calculateBounds singlePointInput) :=
  claim10_equiv_on_valid singlePointInput (-97, 33) []
    allValidB_singlePoint validPairs_singlePoint

end CaDashboard
